import Mathlib

/-!
Shallow embedding of the AmazeIng configuration loaders:
`ConfigParsing` from `src/exception.py` and `ConfigParser` from
`src/config_parser.py`.  A file is modelled as the list of its lines
(without trailing newlines); the I/O layer (opening the file) is outside
the embedding, so the parsers take the list of lines directly.
-/

/-- The six ASCII whitespace characters stripped by Python `str.strip()`. -/
def pyIsSpace (c : Char) : Bool :=
  c = ' ' || c = '\t' || c = '\n' || c = '\x0b' || c = '\x0c' || c = '\r'

/-- Python `str.strip()` on a character list: drop whitespace at both ends. -/
def pyStripList (cs : List Char) : List Char :=
  ((cs.dropWhile pyIsSpace).reverse.dropWhile pyIsSpace).reverse

/-- Python `str.strip()`. -/
def pyStrip (s : String) : String :=
  String.mk (pyStripList s.toList)

/-- Python `str.lower()` (ASCII letters; config keys are ASCII). -/
def pyLower (s : String) : String :=
  String.mk (s.toList.map Char.toLower)

/-- Whether the character occurs in the list (Python `c in line`). -/
def containsChar (c : Char) (cs : List Char) : Bool :=
  cs.any (· = c)

/-- Python `s.split(sep, 1)`: split at the first occurrence of `c`,
returning the parts before and after it, or `none` when `c` is absent. -/
def splitFirst (c : Char) : List Char → Option (List Char × List Char)
  | [] => none
  | x :: xs =>
    if x = c then some ([], xs)
    else
      match splitFirst c xs with
      | none => none
      | some (l, r) => some (x :: l, r)

/-- Python `s.split(sep)` with a one-character separator: the list of
parts between occurrences of `c` (`"".split(c) == [""]`). -/
def pySplitChar (c : Char) : List Char → List (List Char)
  | [] => [[]]
  | x :: xs =>
    if x = c then [] :: pySplitChar c xs
    else
      match pySplitChar c xs with
      | [] => [[x]]
      | p :: ps => (x :: p) :: ps

/-- Python `value.split("#")[0]`: the prefix before the first `#`. -/
def takeBeforeHash (cs : List Char) : List Char :=
  cs.takeWhile (· ≠ '#')

/-- A nonempty all-digit character list read as a base-10 natural. -/
def digitsToNat (cs : List Char) : Option Nat :=
  if cs ≠ [] && cs.all Char.isDigit then
    some (cs.foldl (fun n c => 10 * n + (c.toNat - '0'.toNat)) 0)
  else none

/-- Python `int(s)`: strip whitespace, optional sign, base-10 digits.
(Underscore digit grouping, accepted by CPython, is not modelled; no
configuration value in the claims uses it.) -/
def pyInt (s : String) : Option Int :=
  match pyStripList s.toList with
  | '-' :: rest => (digitsToNat rest).map (fun n => -(n : Int))
  | '+' :: rest => (digitsToNat rest).map (fun n => (n : Int))
  | cs => (digitsToNat cs).map (fun n => (n : Int))

/-- Python `str` of an `(Int, Int)` tuple, as interpolated in f-strings:
`str((3, 4)) == "(3, 4)"`. -/
def fmtPair (p : Int × Int) : String :=
  "(" ++ toString p.1 ++ ", " ++ toString p.2 ++ ")"

/-- `if not line or line.startswith("#")` on an already-stripped line:
the line is skipped by both parsers' loops. -/
def isBlankOrComment (l : String) : Bool :=
  (pyStrip l).toList.isEmpty || (pyStrip l).toList.headD ' ' == '#'

/-- The error taxonomy of `src/exception.py`: `ConfigError`,
`InvalidDimensionsError` and `InvalidCoordinatesError`, each carrying its
message. -/
inductive MazeErr where
  | configError (msg : String)
  | invalidDimensions (msg : String)
  | invalidCoordinates (msg : String)
deriving DecidableEq, Repr

namespace ConfigParsing

/-- `ConfigParsing.parse_line` from `src/exception.py`: split on the first
`=` if present, else on the first `:`, else raise `ConfigError`; the key is
stripped and lowercased, the value is truncated at its first `#` and
stripped. -/
def parse_line (line : String) : Except MazeErr (String × String) :=
  match splitFirst '=' line.toList with
  | some (k, v) =>
    Except.ok (pyLower (pyStrip (String.mk k)),
               pyStrip (String.mk (takeBeforeHash v)))
  | none =>
    match splitFirst ':' line.toList with
    | some (k, v) =>
      Except.ok (pyLower (pyStrip (String.mk k)),
                 pyStrip (String.mk (takeBeforeHash v)))
    | none =>
      Except.error (MazeErr.configError "Invalid line format: expected \x27=\x27 or \x27:\x27")

/-- The in-progress accumulator of `ConfigParsing.parse`: the local
variables `width`, `height`, `entry`, `exit_coord`, `output_file`,
`algorithm`. -/
structure Acc where
  width : Option Int
  height : Option Int
  entry : Option (Int × Int)
  exit_coord : Option (Int × Int)
  output_file : Option String
  algorithm : String
deriving DecidableEq, Repr

/-- The accumulator at the start of `ConfigParsing.parse`. -/
def initAcc : Acc :=
  { width := none, height := none, entry := none, exit_coord := none,
    output_file := none, algorithm := "recursive_backtracking" }

/-- `x, y = value.split(","); (int(x.strip()), int(y.strip()))`:
exactly two comma-separated parts, each an integer. -/
def parseCoordPair (value : String) : Option (Int × Int) :=
  match pySplitChar ',' value.toList with
  | [a, b] =>
    match pyInt (pyStrip (String.mk a)), pyInt (pyStrip (String.mk b)) with
    | some x, some y => some (x, y)
    | _, _ => none
  | _ => none

/-- One iteration of the line loop of `ConfigParsing.parse`: strip the
line, skip blanks and comments, tokenize, and update the matching field
(unknown keys are ignored). -/
def processLine (acc : Acc) (rawLine : String) : Except MazeErr Acc :=
  let line := pyStrip rawLine
  if isBlankOrComment rawLine then Except.ok acc
  else
    match parse_line line with
    | Except.error e => Except.error e
    | Except.ok (key, value) =>
      if key = "width" then
        match pyInt value with
        | some n => Except.ok { acc with width := some n }
        | none => Except.error (MazeErr.invalidDimensions "Width must be an integer")
      else if key = "height" then
        match pyInt value with
        | some n => Except.ok { acc with height := some n }
        | none => Except.error (MazeErr.invalidDimensions "Height must be an integer")
      else if key = "entry" then
        match parseCoordPair value with
        | some p => Except.ok { acc with entry := some p }
        | none => Except.error (MazeErr.invalidCoordinates "Entry must be in format: x,y")
      else if key = "exit" then
        match parseCoordPair value with
        | some p => Except.ok { acc with exit_coord := some p }
        | none => Except.error (MazeErr.invalidCoordinates "Exit must be in format: x,y")
      else if key = "output_file" then
        Except.ok { acc with output_file := some value }
      else if key = "algorithm" then
        Except.ok { acc with algorithm := value }
      else Except.ok acc

/-- The line loop of `ConfigParsing.parse`, starting from accumulator
`acc`. -/
def scanFrom (acc : Acc) : List String → Except MazeErr Acc
  | [] => Except.ok acc
  | l :: ls =>
    match processLine acc l with
    | Except.error e => Except.error e
    | Except.ok acc' => scanFrom acc' ls

/-- The line loop of `ConfigParsing.parse` from the initial accumulator. -/
def scanLines (lines : List String) : Except MazeErr Acc :=
  scanFrom initAcc lines

/-- The validated record returned by `ConfigParsing.parse`. -/
structure MazeConfig where
  width : Int
  height : Int
  entry : Int × Int
  exit_coord : Int × Int
  output_file : String
  algorithm : String
deriving DecidableEq, Repr

/-- The post-loop validation of `ConfigParsing.parse`: presence checks in
the order width, height, entry, exit, output_file; then positivity, the
1000 upper bound, coordinate bounds for entry then exit, and entry ≠ exit.
Messages reproduce the source f-strings, including the two backslash line
continuations that splice the next source line into the literal. -/
def validate (acc : Acc) : Except MazeErr MazeConfig :=
  match acc.width with
  | none => Except.error (MazeErr.invalidDimensions "Width not found in config file")
  | some width =>
  match acc.height with
  | none => Except.error (MazeErr.invalidDimensions "Height not found in config file")
  | some height =>
  match acc.entry with
  | none => Except.error (MazeErr.invalidCoordinates "Entry not found in config file")
  | some entry =>
  match acc.exit_coord with
  | none => Except.error (MazeErr.invalidCoordinates "Exit not found in config file")
  | some exit_coord =>
  match acc.output_file with
  | none => Except.error (MazeErr.invalidDimensions "Output file not found in config file")
  | some output_file =>
  if width ≤ 0 then
    Except.error (MazeErr.invalidDimensions
      ("Width must be positive, got " ++ toString width))
  else if height ≤ 0 then
    Except.error (MazeErr.invalidDimensions
      ("Height must be positive, got" ++ toString height))
  else if width > 1000 then
    Except.error (MazeErr.invalidDimensions
      ("Width too large (max 1000), got " ++ toString width))
  else if height > 1000 then
    Except.error (MazeErr.invalidDimensions
      ("Height too large (max 1000), got " ++ toString height))
  else if entry.1 < 0 ∨ entry.1 ≥ width ∨ entry.2 < 0 ∨ entry.2 ≥ height then
    Except.error (MazeErr.invalidCoordinates
      ("Entry " ++ fmtPair entry ++ " is out of bounds (0-" ++
       toString (width - 1) ++ ", 0-" ++ toString (height - 1) ++ ")"))
  else if exit_coord.1 < 0 ∨ exit_coord.1 ≥ width ∨ exit_coord.2 < 0 ∨ exit_coord.2 ≥ height then
    Except.error (MazeErr.invalidCoordinates
      ("Exit " ++ fmtPair exit_coord ++ " is out of bounds (0-" ++
       toString (width - 1) ++ ", 0-" ++ toString (height - 1) ++ ")"))
  else if entry = exit_coord then
    Except.error (MazeErr.invalidCoordinates "Entry and exit cannot be the same")
  else
    Except.ok { width := width, height := height, entry := entry,
                exit_coord := exit_coord, output_file := output_file,
                algorithm := acc.algorithm }

/-- `ConfigParsing.parse` on the file's lines: scan, then validate. -/
def parse (lines : List String) : Except MazeErr MazeConfig :=
  match scanLines lines with
  | Except.error e => Except.error e
  | Except.ok acc => validate acc

/-- The key a data line contributes, if any: `none` for skipped lines and
for lines the tokenizer rejects. -/
def lineKey (l : String) : Option String :=
  if isBlankOrComment l then none
  else
    match parse_line (pyStrip l) with
    | Except.ok (k, _) => some k
    | Except.error _ => none

end ConfigParsing

namespace ConfigParser

/-- `dict[key] = value` on a dictionary kept in insertion order, as the
`self.config` dict of `src/config_parser.py`: overwrite in place if the
key exists, else append. -/
def setKey : List (String × String) → String → String → List (String × String)
  | [], k, v => [(k, v)]
  | (k', v') :: rest, k, v =>
    if k' = k then (k, v) :: rest else (k', v') :: setKey rest k v

/-- One iteration of the line loop of `ConfigParser.parse`: strip, skip
blanks and comments, require `=`, store the stripped key and value. -/
def processLine (cfg : List (String × String)) (rawLine : String) :
    Except String (List (String × String)) :=
  let line := pyStrip rawLine
  if isBlankOrComment rawLine then Except.ok cfg
  else
    match splitFirst '=' line.toList with
    | none => Except.error ("Invalid line: " ++ line)
    | some (k, v) =>
      Except.ok (setKey cfg (pyStrip (String.mk k)) (pyStrip (String.mk v)))

/-- The line loop of `ConfigParser.parse` starting from the instance's
current `self.config` dictionary (which `parse` does not reset). -/
def parseFrom (cfg : List (String × String)) :
    List String → Except String (List (String × String))
  | [] => Except.ok cfg
  | l :: ls =>
    match processLine cfg l with
    | Except.error e => Except.error e
    | Except.ok cfg' => parseFrom cfg' ls

end ConfigParser

deriving instance DecidableEq for Except

/-! ## Helper lemmas -/

theorem splitFirst_of_eq (c : Char) (l r : List Char) (hl : c ∉ l) :
    splitFirst c (l ++ c :: r) = some (l, r) := by
  induction l with
  | nil => simp [splitFirst]
  | cons x xs ih =>
    have hx : ¬ x = c := fun h => hl (h ▸ List.mem_cons_self x xs)
    have hxs : c ∉ xs := fun h => hl (List.mem_cons_of_mem _ h)
    simp only [List.cons_append, splitFirst, if_neg hx, List.append_eq, ih hxs]

theorem splitFirst_eq_none (c : Char) (cs : List Char) (h : c ∉ cs) :
    splitFirst c cs = none := by
  induction cs with
  | nil => rfl
  | cons x xs ih =>
    have hx : ¬ x = c := fun hh => h (hh ▸ List.mem_cons_self x xs)
    have hxs : c ∉ xs := fun hh => h (List.mem_cons_of_mem _ hh)
    simp only [splitFirst, if_neg hx, ih hxs]

theorem validate_ok (acc : ConfigParsing.Acc) (W H : Int) (e x : Int × Int)
    (f : String)
    (hw : acc.width = some W) (hh : acc.height = some H)
    (he : acc.entry = some e) (hx : acc.exit_coord = some x)
    (hf : acc.output_file = some f)
    (hW1 : 0 < W) (hW2 : W ≤ 1000) (hH1 : 0 < H) (hH2 : H ≤ 1000)
    (hex : 0 ≤ e.1) (hew : e.1 < W) (hey : 0 ≤ e.2) (heh : e.2 < H)
    (hxx : 0 ≤ x.1) (hxw : x.1 < W) (hxy : 0 ≤ x.2) (hxh : x.2 < H)
    (hne : e ≠ x) :
    ConfigParsing.validate acc =
      Except.ok ⟨W, H, e, x, f, acc.algorithm⟩ := by
  unfold ConfigParsing.validate
  simp only [hw, hh, he, hx, hf]
  rw [if_neg (by omega), if_neg (by omega), if_neg (by omega), if_neg (by omega),
      if_neg (by omega), if_neg (by omega), if_neg hne]

theorem processLine_algorithm (acc acc' : ConfigParsing.Acc) (l : String)
    (h : ConfigParsing.processLine acc l = Except.ok acc')
    (hk : ConfigParsing.lineKey l ≠ some "algorithm") :
    acc'.algorithm = acc.algorithm := by
  simp only [ConfigParsing.processLine] at h
  simp only [ConfigParsing.lineKey] at hk
  split at h
  · injection h with h
    subst h
    rfl
  · rename_i hb
    rw [if_neg hb] at hk
    split at h
    · simp at h
    · rename_i kv k v heq
      simp only [heq] at hk
      repeat' split at h
      all_goals first
        | (injection h with h; subst h; rfl)
        | simp_all

theorem scanFrom_algorithm (ls : List String) (acc acc' : ConfigParsing.Acc)
    (h : ConfigParsing.scanFrom acc ls = Except.ok acc')
    (hk : ∀ l ∈ ls, ConfigParsing.lineKey l ≠ some "algorithm") :
    acc'.algorithm = acc.algorithm := by
  induction ls generalizing acc with
  | nil =>
    simp only [ConfigParsing.scanFrom] at h
    injection h with h
    subst h
    rfl
  | cons l ls ih =>
    simp only [ConfigParsing.scanFrom] at h
    split at h
    · simp at h
    · rename_i acc₁ heq
      have h1 := processLine_algorithm acc acc₁ l heq
        (hk l (List.mem_cons_self l ls))
      have h2 := ih acc₁ h (fun x hx => hk x (List.mem_cons_of_mem _ hx))
      rw [h2, h1]

theorem scanFrom_skip (ls : List String) (acc : ConfigParsing.Acc)
    (h : ∀ l ∈ ls, isBlankOrComment l = true) :
    ConfigParsing.scanFrom acc ls = Except.ok acc := by
  induction ls with
  | nil => rfl
  | cons l ls ih =>
    have hl := h l (List.mem_cons_self l ls)
    simp only [ConfigParsing.scanFrom, ConfigParsing.processLine, hl, if_true]
    exact ih (fun x hx => h x (List.mem_cons_of_mem _ hx))

theorem validate_output_inv (acc : ConfigParsing.Acc)
    (cfg : ConfigParsing.MazeConfig)
    (h : ConfigParsing.validate acc = Except.ok cfg) :
    acc.output_file = some cfg.output_file := by
  unfold ConfigParsing.validate at h
  split at h
  · simp at h
  · split at h
    · simp at h
    · split at h
      · simp at h
      · split at h
        · simp at h
        · split at h
          · simp at h
          · rename_i f hf
            split at h
            · simp at h
            · split at h
              · simp at h
              · split at h
                · simp at h
                · split at h
                  · simp at h
                  · split at h
                    · simp at h
                    · split at h
                      · simp at h
                      · split at h
                        · simp at h
                        · injection h with h
                          rw [hf, ← h]

/-! ## Claims -/

/-- C1: for every well-formed file whose data lines set width, height,
entry, exit (in range and distinct) and output_file, `ConfigParsing.parse`
returns a record whose fields equal the parsed values exactly, and whose
algorithm field is the supplied value, defaulting to
"recursive_backtracking" when no algorithm line occurs. -/
theorem C1_parse_wellformed (lines : List String) (acc : ConfigParsing.Acc)
    (W H : Int) (e x : Int × Int) (f : String)
    (hscan : ConfigParsing.scanLines lines = Except.ok acc)
    (hw : acc.width = some W) (hh : acc.height = some H)
    (he : acc.entry = some e) (hx : acc.exit_coord = some x)
    (hf : acc.output_file = some f)
    (hW1 : 0 < W) (hW2 : W ≤ 1000) (hH1 : 0 < H) (hH2 : H ≤ 1000)
    (hex : 0 ≤ e.1) (hew : e.1 < W) (hey : 0 ≤ e.2) (heh : e.2 < H)
    (hxx : 0 ≤ x.1) (hxw : x.1 < W) (hxy : 0 ≤ x.2) (hxh : x.2 < H)
    (hne : e ≠ x) :
    ConfigParsing.parse lines = Except.ok ⟨W, H, e, x, f, acc.algorithm⟩ ∧
    ((∀ l ∈ lines, ConfigParsing.lineKey l ≠ some "algorithm") →
      acc.algorithm = "recursive_backtracking") := by
  constructor
  · simp only [ConfigParsing.parse, hscan]
    exact validate_ok acc W H e x f hw hh he hx hf hW1 hW2 hH1 hH2
      hex hew hey heh hxx hxw hxy hxh hne
  · intro hno
    exact scanFrom_algorithm lines ConfigParsing.initAcc acc hscan hno

theorem C1_witness :
    ConfigParsing.parse
      ["width = 10", "height = 10", "entry = 0,0", "exit = 9,9",
       "output_file = out.txt"] =
      Except.ok ⟨10, 10, (0, 0), (9, 9), "out.txt", "recursive_backtracking"⟩ := by
  exact (C1_parse_wellformed
    ["width = 10", "height = 10", "entry = 0,0", "exit = 9,9",
     "output_file = out.txt"]
    ⟨some 10, some 10, some (0, 0), some (9, 9), some "out.txt",
     "recursive_backtracking"⟩
    10 10 (0, 0) (9, 9) "out.txt"
    (by decide) rfl rfl rfl rfl rfl
    (by decide) (by decide) (by decide) (by decide)
    (by decide) (by decide) (by decide) (by decide)
    (by decide) (by decide) (by decide) (by decide) (by decide)).1

/-- C2: when a required field was never set, `ConfigParsing.parse` fails
with the "not found in config file" presence error of the first unset
field in the order width, height, entry, exit, output_file; a file with
only blank and comment lines fails with the width presence error. -/
theorem C2_presence_order :
    (∀ (lines : List String) (acc : ConfigParsing.Acc),
      ConfigParsing.scanLines lines = Except.ok acc →
      (acc.width = none →
        ConfigParsing.parse lines =
          Except.error (MazeErr.invalidDimensions "Width not found in config file")) ∧
      (acc.width ≠ none → acc.height = none →
        ConfigParsing.parse lines =
          Except.error (MazeErr.invalidDimensions "Height not found in config file")) ∧
      (acc.width ≠ none → acc.height ≠ none → acc.entry = none →
        ConfigParsing.parse lines =
          Except.error (MazeErr.invalidCoordinates "Entry not found in config file")) ∧
      (acc.width ≠ none → acc.height ≠ none → acc.entry ≠ none →
       acc.exit_coord = none →
        ConfigParsing.parse lines =
          Except.error (MazeErr.invalidCoordinates "Exit not found in config file")) ∧
      (acc.width ≠ none → acc.height ≠ none → acc.entry ≠ none →
       acc.exit_coord ≠ none → acc.output_file = none →
        ConfigParsing.parse lines =
          Except.error (MazeErr.invalidDimensions "Output file not found in config file"))) ∧
    (∀ lines : List String, (∀ l ∈ lines, isBlankOrComment l = true) →
      ConfigParsing.parse lines =
        Except.error (MazeErr.invalidDimensions "Width not found in config file")) := by
  constructor
  · intro lines acc hscan
    refine ⟨?_, ?_, ?_, ?_, ?_⟩
    · intro h1
      simp only [ConfigParsing.parse, hscan, ConfigParsing.validate, h1]
    · intro h1 h2
      obtain ⟨w, hw⟩ := Option.ne_none_iff_exists'.mp h1
      simp only [ConfigParsing.parse, hscan, ConfigParsing.validate, hw, h2]
    · intro h1 h2 h3
      obtain ⟨w, hw⟩ := Option.ne_none_iff_exists'.mp h1
      obtain ⟨h', hh⟩ := Option.ne_none_iff_exists'.mp h2
      simp only [ConfigParsing.parse, hscan, ConfigParsing.validate, hw, hh, h3]
    · intro h1 h2 h3 h4
      obtain ⟨w, hw⟩ := Option.ne_none_iff_exists'.mp h1
      obtain ⟨h', hh⟩ := Option.ne_none_iff_exists'.mp h2
      obtain ⟨e, he⟩ := Option.ne_none_iff_exists'.mp h3
      simp only [ConfigParsing.parse, hscan, ConfigParsing.validate, hw, hh, he, h4]
    · intro h1 h2 h3 h4 h5
      obtain ⟨w, hw⟩ := Option.ne_none_iff_exists'.mp h1
      obtain ⟨h', hh⟩ := Option.ne_none_iff_exists'.mp h2
      obtain ⟨e, he⟩ := Option.ne_none_iff_exists'.mp h3
      obtain ⟨x, hx⟩ := Option.ne_none_iff_exists'.mp h4
      simp only [ConfigParsing.parse, hscan, ConfigParsing.validate, hw, hh, he, hx, h5]
  · intro lines hall
    have h := scanFrom_skip lines ConfigParsing.initAcc hall
    simp only [ConfigParsing.parse, ConfigParsing.scanLines, h]
    rfl

theorem C2_witness :
    ConfigParsing.parse ["height=5", "entry=0,0"] =
      Except.error (MazeErr.invalidDimensions "Width not found in config file") ∧
    ConfigParsing.parse ["width=5"] =
      Except.error (MazeErr.invalidDimensions "Height not found in config file") ∧
    ConfigParsing.parse ["# comment only", "   "] =
      Except.error (MazeErr.invalidDimensions "Width not found in config file") := by
  refine ⟨?_, ?_, ?_⟩
  · exact ((C2_presence_order.1 ["height=5", "entry=0,0"]
      ⟨none, some 5, some (0, 0), none, none, "recursive_backtracking"⟩
      (by decide)).1 rfl)
  · exact ((C2_presence_order.1 ["width=5"]
      ⟨some 5, none, none, none, none, "recursive_backtracking"⟩
      (by decide)).2.1 (by decide) rfl)
  · exact C2_presence_order.2 ["# comment only", "   "] (by decide)

/-- C3: once all presence checks pass, the dimension checks run in the
order width > 0, height > 0, width ≤ 1000, height ≤ 1000, raising a
dimension error quoting the offending value at the first failed check
(the height-positivity message has no space before the value, from the
source's backslash line continuation); dimensions within 1..1000 pass all
dimension checks, so boundary values 1 and 1000 succeed while 0 and 1001
fail. -/
theorem C3_dimension_checks
    (lines : List String) (acc : ConfigParsing.Acc)
    (W H : Int) (e x : Int × Int) (f : String)
    (hscan : ConfigParsing.scanLines lines = Except.ok acc)
    (hw : acc.width = some W) (hh : acc.height = some H)
    (he : acc.entry = some e) (hx : acc.exit_coord = some x)
    (hf : acc.output_file = some f) :
    (W ≤ 0 →
      ConfigParsing.parse lines =
        Except.error (MazeErr.invalidDimensions
          ("Width must be positive, got " ++ toString W))) ∧
    (0 < W → H ≤ 0 →
      ConfigParsing.parse lines =
        Except.error (MazeErr.invalidDimensions
          ("Height must be positive, got" ++ toString H))) ∧
    (0 < W → 0 < H → 1000 < W →
      ConfigParsing.parse lines =
        Except.error (MazeErr.invalidDimensions
          ("Width too large (max 1000), got " ++ toString W))) ∧
    (0 < W → 0 < H → W ≤ 1000 → 1000 < H →
      ConfigParsing.parse lines =
        Except.error (MazeErr.invalidDimensions
          ("Height too large (max 1000), got " ++ toString H))) ∧
    (0 < W → W ≤ 1000 → 0 < H → H ≤ 1000 →
      0 ≤ e.1 → e.1 < W → 0 ≤ e.2 → e.2 < H →
      0 ≤ x.1 → x.1 < W → 0 ≤ x.2 → x.2 < H → e ≠ x →
      ∃ cfg, ConfigParsing.parse lines = Except.ok cfg) := by
  refine ⟨?_, ?_, ?_, ?_, ?_⟩
  · intro h1
    simp only [ConfigParsing.parse, hscan, ConfigParsing.validate, hw, hh, he, hx, hf]
    rw [if_pos h1]
  · intro h1 h2
    simp only [ConfigParsing.parse, hscan, ConfigParsing.validate, hw, hh, he, hx, hf]
    rw [if_neg (by omega), if_pos h2]
  · intro h1 h2 h3
    simp only [ConfigParsing.parse, hscan, ConfigParsing.validate, hw, hh, he, hx, hf]
    rw [if_neg (by omega), if_neg (by omega), if_pos (by omega)]
  · intro h1 h2 h3 h4
    simp only [ConfigParsing.parse, hscan, ConfigParsing.validate, hw, hh, he, hx, hf]
    rw [if_neg (by omega), if_neg (by omega), if_neg (by omega), if_pos (by omega)]
  · intro h1 h2 h3 h4 h5 h6 h7 h8 h9 h10 h11 h12 h13
    refine ⟨⟨W, H, e, x, f, acc.algorithm⟩, ?_⟩
    simp only [ConfigParsing.parse, hscan]
    exact validate_ok acc W H e x f hw hh he hx hf h1 h2 h3 h4
      h5 h6 h7 h8 h9 h10 h11 h12 h13

theorem C3_witness :
    (∃ cfg, ConfigParsing.parse
      ["width=1000", "height=1", "entry=0,0", "exit=999,0", "output_file=o"] =
      Except.ok cfg) ∧
    ConfigParsing.parse
      ["width=0", "height=1", "entry=0,0", "exit=0,0", "output_file=o"] =
      Except.error (MazeErr.invalidDimensions "Width must be positive, got 0") ∧
    ConfigParsing.parse
      ["width=1001", "height=1", "entry=0,0", "exit=1,0", "output_file=o"] =
      Except.error (MazeErr.invalidDimensions "Width too large (max 1000), got 1001") := by
  refine ⟨?_, ?_, ?_⟩
  · exact (C3_dimension_checks
      ["width=1000", "height=1", "entry=0,0", "exit=999,0", "output_file=o"]
      ⟨some 1000, some 1, some (0, 0), some (999, 0), some "o",
       "recursive_backtracking"⟩
      1000 1 (0, 0) (999, 0) "o"
      (by decide) rfl rfl rfl rfl rfl).2.2.2.2
      (by decide) (by decide) (by decide) (by decide) (by decide) (by decide)
      (by decide) (by decide) (by decide) (by decide) (by decide) (by decide)
      (by decide)
  · exact (C3_dimension_checks
      ["width=0", "height=1", "entry=0,0", "exit=0,0", "output_file=o"]
      ⟨some 0, some 1, some (0, 0), some (0, 0), some "o",
       "recursive_backtracking"⟩
      0 1 (0, 0) (0, 0) "o"
      (by decide) rfl rfl rfl rfl rfl).1 (by decide)
  · exact (C3_dimension_checks
      ["width=1001", "height=1", "entry=0,0", "exit=1,0", "output_file=o"]
      ⟨some 1001, some 1, some (0, 0), some (1, 0), some "o",
       "recursive_backtracking"⟩
      1001 1 (0, 0) (1, 0) "o"
      (by decide) rfl rfl rfl rfl rfl).2.2.1 (by decide) (by decide) (by decide)

/-- C4: after the dimension checks pass, entry is bounds-checked before
exit; an out-of-range pair yields a coordinate error reporting the pair
and the bounding box 0..width-1 by 0..height-1, and pairs inside the box
pass the bounds checks (parsing then succeeds or fails only with the
entry-equals-exit error). -/
theorem C4_coordinate_checks
    (lines : List String) (acc : ConfigParsing.Acc)
    (W H : Int) (e x : Int × Int) (f : String)
    (hscan : ConfigParsing.scanLines lines = Except.ok acc)
    (hw : acc.width = some W) (hh : acc.height = some H)
    (he : acc.entry = some e) (hx : acc.exit_coord = some x)
    (hf : acc.output_file = some f)
    (hW1 : 0 < W) (hW2 : W ≤ 1000) (hH1 : 0 < H) (hH2 : H ≤ 1000) :
    ((e.1 < 0 ∨ e.1 ≥ W ∨ e.2 < 0 ∨ e.2 ≥ H) →
      ConfigParsing.parse lines =
        Except.error (MazeErr.invalidCoordinates
          ("Entry " ++ fmtPair e ++ " is out of bounds (0-" ++
           toString (W - 1) ++ ", 0-" ++ toString (H - 1) ++ ")"))) ∧
    (0 ≤ e.1 → e.1 < W → 0 ≤ e.2 → e.2 < H →
     (x.1 < 0 ∨ x.1 ≥ W ∨ x.2 < 0 ∨ x.2 ≥ H) →
      ConfigParsing.parse lines =
        Except.error (MazeErr.invalidCoordinates
          ("Exit " ++ fmtPair x ++ " is out of bounds (0-" ++
           toString (W - 1) ++ ", 0-" ++ toString (H - 1) ++ ")"))) ∧
    (0 ≤ e.1 → e.1 < W → 0 ≤ e.2 → e.2 < H →
     0 ≤ x.1 → x.1 < W → 0 ≤ x.2 → x.2 < H →
      ConfigParsing.parse lines = Except.ok ⟨W, H, e, x, f, acc.algorithm⟩ ∨
      ConfigParsing.parse lines =
        Except.error (MazeErr.invalidCoordinates "Entry and exit cannot be the same")) := by
  refine ⟨?_, ?_, ?_⟩
  · intro h1
    simp only [ConfigParsing.parse, hscan, ConfigParsing.validate, hw, hh, he, hx, hf]
    rw [if_neg (by omega), if_neg (by omega), if_neg (by omega), if_neg (by omega),
        if_pos h1]
  · intro h1 h2 h3 h4 h5
    simp only [ConfigParsing.parse, hscan, ConfigParsing.validate, hw, hh, he, hx, hf]
    rw [if_neg (by omega), if_neg (by omega), if_neg (by omega), if_neg (by omega),
        if_neg (by omega), if_pos h5]
  · intro h1 h2 h3 h4 h5 h6 h7 h8
    by_cases hex : e = x
    · right
      simp only [ConfigParsing.parse, hscan, ConfigParsing.validate, hw, hh, he, hx, hf]
      rw [if_neg (by omega), if_neg (by omega), if_neg (by omega), if_neg (by omega),
          if_neg (by omega), if_neg (by omega), if_pos hex]
    · left
      simp only [ConfigParsing.parse, hscan]
      exact validate_ok acc W H e x f hw hh he hx hf hW1 hW2 hH1 hH2
        h1 h2 h3 h4 h5 h6 h7 h8 hex

theorem C4_witness :
    ConfigParsing.parse
      ["width=10", "height=7", "entry=10,5", "exit=1,1", "output_file=o"] =
      Except.error (MazeErr.invalidCoordinates
        "Entry (10, 5) is out of bounds (0-9, 0-6)") ∧
    ConfigParsing.parse
      ["width=10", "height=7", "entry=0,0", "exit=3,-1", "output_file=o"] =
      Except.error (MazeErr.invalidCoordinates
        "Exit (3, -1) is out of bounds (0-9, 0-6)") := by
  constructor
  · have h := (C4_coordinate_checks
      ["width=10", "height=7", "entry=10,5", "exit=1,1", "output_file=o"]
      ⟨some 10, some 7, some (10, 5), some (1, 1), some "o",
       "recursive_backtracking"⟩
      10 7 (10, 5) (1, 1) "o"
      (by decide) rfl rfl rfl rfl rfl
      (by decide) (by decide) (by decide) (by decide)).1 (by decide)
    simpa using h
  · have h := (C4_coordinate_checks
      ["width=10", "height=7", "entry=0,0", "exit=3,-1", "output_file=o"]
      ⟨some 10, some 7, some (0, 0), some (3, -1), some "o",
       "recursive_backtracking"⟩
      10 7 (0, 0) (3, -1) "o"
      (by decide) rfl rfl rfl rfl rfl
      (by decide) (by decide) (by decide) (by decide)).2.1
      (by decide) (by decide) (by decide) (by decide) (by decide)
    simpa using h

/-- C5 counterexample: the tokenizer's format error message is the fixed
string "Invalid line format: expected '=' or ':'", which does not contain
the offending line, so the error does not name the line. -/
theorem C5_counterexample :
    ConfigParsing.parse_line "bogus_line_without_sep" =
      Except.error (MazeErr.configError
        "Invalid line format: expected \x27=\x27 or \x27:\x27") ∧
    ¬ List.IsInfix "bogus_line_without_sep".toList
      "Invalid line format: expected \x27=\x27 or \x27:\x27".toList := by
  constructor
  · rfl
  · decide

/-- C5 amended: the tokenizer splits on the first `=` if the line contains
one, else on the first `:`, else fails with the fixed-format error (which
does not name the line); the key is whitespace-trimmed and lowercased and
the value is truncated at its first `#` and then trimmed. -/
theorem C5_tokenizer
    (line : String) :
    (∀ l r : List Char, line.toList = l ++ '=' :: r → '=' ∉ l →
      ConfigParsing.parse_line line =
        Except.ok (pyLower (pyStrip (String.mk l)),
                   pyStrip (String.mk (takeBeforeHash r)))) ∧
    (∀ l r : List Char, '=' ∉ line.toList →
      line.toList = l ++ ':' :: r → ':' ∉ l →
      ConfigParsing.parse_line line =
        Except.ok (pyLower (pyStrip (String.mk l)),
                   pyStrip (String.mk (takeBeforeHash r)))) ∧
    ('=' ∉ line.toList → ':' ∉ line.toList →
      ConfigParsing.parse_line line =
        Except.error (MazeErr.configError
          "Invalid line format: expected \x27=\x27 or \x27:\x27")) := by
  refine ⟨?_, ?_, ?_⟩
  · intro l r hline hl
    simp only [ConfigParsing.parse_line, hline, splitFirst_of_eq '=' l r hl]
  · intro l r h1 hline hl
    simp only [ConfigParsing.parse_line, splitFirst_eq_none '=' line.toList h1]
    rw [hline, splitFirst_of_eq ':' l r hl]
  · intro h1 h2
    simp only [ConfigParsing.parse_line, splitFirst_eq_none '=' line.toList h1,
      splitFirst_eq_none ':' line.toList h2]

theorem C5_witness :
    ConfigParsing.parse_line "Entry = 3,4 # note" = Except.ok ("entry", "3,4") ∧
    ConfigParsing.parse_line "exit : 1,2" = Except.ok ("exit", "1,2") ∧
    ConfigParsing.parse_line "no sep here" =
      Except.error (MazeErr.configError
        "Invalid line format: expected \x27=\x27 or \x27:\x27") := by
  refine ⟨?_, ?_, ?_⟩
  · have h := (C5_tokenizer "Entry = 3,4 # note").1
      "Entry ".toList " 3,4 # note".toList (by decide) (by decide)
    simpa using h
  · have h := (C5_tokenizer "exit : 1,2").2.1
      "exit ".toList " 1,2".toList (by decide) (by decide) (by decide)
    simpa using h
  · exact (C5_tokenizer "no sep here").2.2 (by decide) (by decide)

/-- C6 counterexample: a file setting entry and exit to the same pair but
an invalid width fails with the width dimension error, not with the
"Entry and exit cannot be the same" coordinate error, because the
distinctness check runs last. -/
theorem C6_counterexample :
    ConfigParsing.parse
      ["width=0", "height=5", "entry=0,0", "exit=0,0", "output_file=o"] =
      Except.error (MazeErr.invalidDimensions "Width must be positive, got 0") ∧
    MazeErr.invalidDimensions "Width must be positive, got 0" ≠
      MazeErr.invalidCoordinates "Entry and exit cannot be the same" := by
  constructor
  · rfl
  · decide

/-- C6 amended: when the entry and exit lines set the same pair, parsing
never succeeds; the specific "Entry and exit cannot be the same"
coordinate error is reported exactly when all earlier presence, dimension
and bounds checks pass. -/
theorem C6_entry_exit_same
    (lines : List String) (acc : ConfigParsing.Acc) (p : Int × Int)
    (hscan : ConfigParsing.scanLines lines = Except.ok acc)
    (he : acc.entry = some p) (hx : acc.exit_coord = some p) :
    (∀ cfg, ConfigParsing.parse lines ≠ Except.ok cfg) ∧
    (∀ (W H : Int) (f : String),
      acc.width = some W → acc.height = some H → acc.output_file = some f →
      0 < W → W ≤ 1000 → 0 < H → H ≤ 1000 →
      0 ≤ p.1 → p.1 < W → 0 ≤ p.2 → p.2 < H →
      ConfigParsing.parse lines =
        Except.error (MazeErr.invalidCoordinates "Entry and exit cannot be the same")) := by
  constructor
  · intro cfg hok
    simp only [ConfigParsing.parse, hscan] at hok
    unfold ConfigParsing.validate at hok
    repeat' split at hok
    all_goals simp_all
  · intro W H f hw hh hf hW1 hW2 hH1 hH2 h1 h2 h3 h4
    simp only [ConfigParsing.parse, hscan, ConfigParsing.validate, hw, hh, he, hx, hf]
    rw [if_neg (by omega), if_neg (by omega), if_neg (by omega), if_neg (by omega),
        if_neg (by omega), if_neg (by omega), if_pos trivial]

theorem C6_witness :
    ConfigParsing.parse
      ["width=5", "height=5", "entry=2,2", "exit=2,2", "output_file=o"] =
      Except.error (MazeErr.invalidCoordinates "Entry and exit cannot be the same") := by
  exact (C6_entry_exit_same
    ["width=5", "height=5", "entry=2,2", "exit=2,2", "output_file=o"]
    ⟨some 5, some 5, some (2, 2), some (2, 2), some "o",
     "recursive_backtracking"⟩
    (2, 2) (by decide) rfl rfl).2 5 5 "o" rfl rfl rfl
    (by decide) (by decide) (by decide) (by decide)
    (by decide) (by decide) (by decide) (by decide)

/-- C7 counterexample: a file whose output_file line carries an empty
value parses successfully with an empty output_file string, so a
successfully returned record need not have a non-empty output_file. -/
theorem C7_counterexample :
    ConfigParsing.parse
      ["width=5", "height=5", "entry=0,0", "exit=1,1", "output_file="] =
      Except.ok ⟨5, 5, (0, 0), (1, 1), "", "recursive_backtracking"⟩ ∧
    (ConfigParsing.MazeConfig.output_file
      ⟨5, 5, (0, 0), (1, 1), "", "recursive_backtracking"⟩).length = 0 := by
  constructor
  · rfl
  · rfl

/-- C7 amended: every record successfully returned by
`ConfigParsing.parse` has its output_file taken from the accumulated
output_file value (which must have been set), but the string may be
empty; non-emptiness is not checked. -/
theorem C7_output_set
    (lines : List String) (cfg : ConfigParsing.MazeConfig)
    (h : ConfigParsing.parse lines = Except.ok cfg) :
    ∃ acc, ConfigParsing.scanLines lines = Except.ok acc ∧
      acc.output_file = some cfg.output_file := by
  unfold ConfigParsing.parse at h
  cases hscan : ConfigParsing.scanLines lines with
  | error e =>
    rw [hscan] at h
    simp at h
  | ok acc =>
    rw [hscan] at h
    exact ⟨acc, rfl, validate_output_inv acc cfg h⟩

theorem C7_witness :
    ∃ acc, ConfigParsing.scanLines
      ["width=5", "height=5", "entry=0,0", "exit=1,1", "output_file="] =
      Except.ok acc ∧
      acc.output_file =
        some (ConfigParsing.MazeConfig.output_file
          ⟨5, 5, (0, 0), (1, 1), "", "recursive_backtracking"⟩) := by
  exact C7_output_set
    ["width=5", "height=5", "entry=0,0", "exit=1,1", "output_file="]
    ⟨5, 5, (0, 0), (1, 1), "", "recursive_backtracking"⟩ rfl

/-- C8 counterexample: a `ConfigParser` instance keeps `self.config`
across `parse` calls, so after a load whose file set key "a", a later
load of a file setting only key "b" returns a dictionary that still
contains "a" — unlike a fresh load of the same file. -/
theorem C8_counterexample :
    ConfigParser.parseFrom [] ["a=1"] = Except.ok [("a", "1")] ∧
    ConfigParser.parseFrom [("a", "1")] ["b=2"] =
      Except.ok [("a", "1"), ("b", "2")] ∧
    ConfigParser.parseFrom [] ["b=2"] = Except.ok [("b", "2")] ∧
    ([("a", "1"), ("b", "2")] : List (String × String)) ≠ [("b", "2")] := by
  refine ⟨rfl, rfl, rfl, by decide⟩

/-- C8 amended: `ConfigParsing.parse` is a pure function of the file's
lines, so parsing the same lines twice yields structurally-equal results;
but a `ConfigParser` instance carries its accumulated dictionary across
calls: after a successful load, a later load behaves exactly as a fresh
load of the earlier file's lines concatenated with the later file's
lines, so an earlier load on the same instance can affect a later one. -/
theorem C8_purity_and_state :
    (∀ lines : List String, ConfigParsing.parse lines = ConfigParsing.parse lines) ∧
    (∀ (cfg c1 : List (String × String)) (l1 l2 : List String),
      ConfigParser.parseFrom cfg l1 = Except.ok c1 →
      ConfigParser.parseFrom c1 l2 = ConfigParser.parseFrom cfg (l1 ++ l2)) := by
  constructor
  · intro lines
    rfl
  · intro cfg c1 l1 l2 h
    induction l1 generalizing cfg with
    | nil =>
      simp only [ConfigParser.parseFrom] at h
      injection h with h
      subst h
      rfl
    | cons l ls ih =>
      simp only [ConfigParser.parseFrom, List.cons_append] at h ⊢
      cases hp : ConfigParser.processLine cfg l with
      | error e =>
        rw [hp] at h
        simp at h
      | ok cfg' =>
        rw [hp] at h
        exact ih cfg' h

theorem C8_witness :
    ConfigParsing.parse ["width=1"] = ConfigParsing.parse ["width=1"] ∧
    ConfigParser.parseFrom [("a", "1")] ["b=2"] =
      ConfigParser.parseFrom [] (["a=1"] ++ ["b=2"]) := by
  exact ⟨C8_purity_and_state.1 ["width=1"],
         C8_purity_and_state.2 [] [("a", "1")] ["a=1"] ["b=2"] rfl⟩

/-- C9: when output_file is the first unset required field, the presence
error is raised as a dimension-kind error (`InvalidDimensionsError`),
never as a coordinate-kind error, although output_file is not a
dimension. -/
theorem C9_output_presence_kind
    (lines : List String) (acc : ConfigParsing.Acc)
    (hscan : ConfigParsing.scanLines lines = Except.ok acc)
    (h1 : acc.width ≠ none) (h2 : acc.height ≠ none)
    (h3 : acc.entry ≠ none) (h4 : acc.exit_coord ≠ none)
    (h5 : acc.output_file = none) :
    ConfigParsing.parse lines =
      Except.error (MazeErr.invalidDimensions "Output file not found in config file") ∧
    ∀ msg, ConfigParsing.parse lines ≠ Except.error (MazeErr.invalidCoordinates msg) := by
  obtain ⟨w, hw⟩ := Option.ne_none_iff_exists'.mp h1
  obtain ⟨h', hh⟩ := Option.ne_none_iff_exists'.mp h2
  obtain ⟨e, he⟩ := Option.ne_none_iff_exists'.mp h3
  obtain ⟨x, hx⟩ := Option.ne_none_iff_exists'.mp h4
  have hmain : ConfigParsing.parse lines =
      Except.error (MazeErr.invalidDimensions "Output file not found in config file") := by
    simp only [ConfigParsing.parse, hscan, ConfigParsing.validate, hw, hh, he, hx, h5]
  refine ⟨hmain, ?_⟩
  intro msg hc
  rw [hmain] at hc
  simp at hc

theorem C9_witness :
    ConfigParsing.parse ["width=5", "height=5", "entry=0,0", "exit=1,1"] =
      Except.error (MazeErr.invalidDimensions "Output file not found in config file") := by
  exact (C9_output_presence_kind
    ["width=5", "height=5", "entry=0,0", "exit=1,1"]
    ⟨some 5, some 5, some (0, 0), some (1, 1), none, "recursive_backtracking"⟩
    (by decide) (by decide) (by decide) (by decide) (by decide) rfl).1

/-- C10: `ConfigParser.parse` accepts only `=` as separator: any
non-blank, non-comment line without `=` (including `:`-separated lines)
raises a ValueError naming the stripped line; accepted lines store the
stripped key and the stripped remainder of the line verbatim — no
lowercasing and no inline-comment stripping. -/
theorem C10_equals_only
    (cfg : List (String × String)) (line : String) :
    (isBlankOrComment line = false → '=' ∉ (pyStrip line).toList →
      ConfigParser.processLine cfg line =
        Except.error ("Invalid line: " ++ pyStrip line)) ∧
    (∀ l r : List Char,
      isBlankOrComment line = false →
      (pyStrip line).toList = l ++ '=' :: r → '=' ∉ l →
      ConfigParser.processLine cfg line =
        Except.ok (ConfigParser.setKey cfg
          (pyStrip (String.mk l)) (pyStrip (String.mk r)))) ∧
    ConfigParser.processLine [] "Width = 5 # five" =
      Except.ok [("Width", "5 # five")] ∧
    ConfigParser.processLine [] "width : 5" =
      Except.error "Invalid line: width : 5" := by
  refine ⟨?_, ?_, rfl, rfl⟩
  · intro hb hno
    simp only [ConfigParser.processLine, hb, Bool.false_eq_true, if_false,
      splitFirst_eq_none '=' (pyStrip line).toList hno]
  · intro l r hb hline hl
    simp only [ConfigParser.processLine, hb, Bool.false_eq_true, if_false]
    rw [hline, splitFirst_of_eq '=' l r hl]

theorem C10_witness :
    ConfigParser.processLine [] "entry : 0,0" =
      Except.error "Invalid line: entry : 0,0" ∧
    ConfigParser.processLine [] "Key = Val # kept" =
      Except.ok [("Key", "Val # kept")] := by
  constructor
  · exact (C10_equals_only [] "entry : 0,0").1 (by decide) (by decide)
  · have h := (C10_equals_only [] "Key = Val # kept").2.1
      "Key ".toList " Val # kept".toList (by decide) (by decide) (by decide)
    simpa using h
